import Mathlib

/-!
Shallow embedding of `src/movimientos.py` (a CSV bank-transaction
aggregator) and proofs about it.

Modelling conventions:
* Python `decimal.Decimal` values are embedded as `PyDec`: either a finite
  value `DecFin` (an integer coefficient together with a power-of-ten
  exponent, exactly the internal representation of `Decimal`), an infinity,
  or a NaN (quiet or signaling).  Arithmetic on finite values is the
  exact integer sum/difference after aligning exponents at the ideal
  (minimum) exponent, followed by the default-context rounding that
  `Decimal` applies to every arithmetic result: round half-even to
  `decimal.getcontext().prec = 28` significant digits (`roundDec`).
  The sign of a zero or of a NaN is not tracked (it is unobservable in the
  statements below).
* Python exceptions are embedded as the `PyExc` type together with
  `Except`; `decimal.InvalidOperation` is *not* a `ValueError`, and the
  embedding keeps the two distinct because `validar_monto` catches only
  `ValueError`.
* Functions performing I/O (`leer_archivo_csv`, `generar_reporte`,
  `guardar_reporte`, `procesar_archivo_csv`) are embedded by their
  observable text/data behaviour: the loader is modelled on the header
  field list and row list obtained from `csv.DictReader`, and the
  reporters by the exact text they emit.
-/

/-- Python exceptions relevant to `movimientos.py`.  `Decimal` raises
`decimal.InvalidOperation` (a subclass of `ArithmeticError`, not of
`ValueError`) on a malformed numeric string. -/
inductive PyExc where
  | valueError
  | invalidOperation
deriving DecidableEq, Repr

/-- Finite `decimal.Decimal` value: the represented number is
`coeff * 10 ^ exp10`.  This mirrors `Decimal`'s internal
(sign+digits, exponent) representation. -/
structure DecFin where
  coeff : Int
  exp10 : Int
deriving DecidableEq, Repr

/-- Rescale the coefficient of `a` to the (smaller or equal) exponent `m`:
the represented value of `a` equals `a.rescale m * 10 ^ m` whenever
`m ≤ a.exp10`. -/
def DecFin.rescale (a : DecFin) (m : Int) : Int :=
  a.coeff * 10 ^ (a.exp10 - m).toNat

/-- Value order on finite decimals, by comparing coefficients at the
common (minimum) exponent. -/
def DecFin.lt (a b : DecFin) : Prop :=
  a.rescale (min a.exp10 b.exp10) < b.rescale (min a.exp10 b.exp10)

instance (a b : DecFin) : Decidable (DecFin.lt a b) :=
  inferInstanceAs (Decidable (_ < _))

/-- Exact (pre-rounding) sum of finite decimals: align both operands at
the minimum exponent (the ideal exponent of `Decimal.__add__`) and add
coefficients. -/
def DecFin.addExact (a b : DecFin) : DecFin :=
  ⟨a.rescale (min a.exp10 b.exp10) + b.rescale (min a.exp10 b.exp10),
   min a.exp10 b.exp10⟩

/-- Exact (pre-rounding) difference of finite decimals. -/
def DecFin.subExact (a b : DecFin) : DecFin :=
  ⟨a.rescale (min a.exp10 b.exp10) - b.rescale (min a.exp10 b.exp10),
   min a.exp10 b.exp10⟩

/-- Number of decimal digits of a natural number (at least 1). -/
def numDigits (n : Nat) : Nat :=
  (Nat.toDigits 10 n).length

/-- Default context precision of the `decimal` module
(`decimal.getcontext().prec`). -/
def decPrec : Nat := 28

/-- Round a coefficient magnitude half-even to at most `decPrec`
significant digits, returning the rounded magnitude together with the
number of positions the exponent must be raised.  A magnitude that
already fits in `decPrec` digits is returned unchanged (the operation was
exact).  When rounding up overflows to a `decPrec + 1`-digit magnitude
(a power of ten), it is divided by ten and the exponent raised once
more. -/
def roundMag (n : Nat) : Nat × Nat :=
  let dgs := numDigits n
  if dgs ≤ decPrec then (n, 0)
  else
    let k := dgs - decPrec
    let p := (10 : Nat) ^ k
    let q := n / p
    let r := n % p
    let q1 := if p < 2 * r then q + 1
      else if 2 * r < p then q
      else if q % 2 = 0 then q else q + 1
    if q1 = 10 ^ decPrec then (10 ^ (decPrec - 1), k + 1) else (q1, k)

/-- Context rounding applied by every `Decimal` arithmetic operation
under the default context: round the coefficient half-even to at most
`decPrec = 28` significant digits, raising the exponent by the number of
digits dropped. -/
def roundDec (d : DecFin) : DecFin :=
  ⟨if d.coeff < 0 then -((roundMag d.coeff.natAbs).1 : Int)
    else ((roundMag d.coeff.natAbs).1 : Int),
   d.exp10 + ((roundMag d.coeff.natAbs).2 : Int)⟩

/-- `Decimal.__add__` under the default context: the exact sum at the
ideal exponent, rounded to 28 significant digits. -/
def DecFin.add (a b : DecFin) : DecFin :=
  roundDec (a.addExact b)

/-- `Decimal.__sub__` under the default context. -/
def DecFin.sub (a b : DecFin) : DecFin :=
  roundDec (a.subExact b)

/-- Rational value represented by a finite decimal. -/
def valQ (a : DecFin) : ℚ :=
  (a.coeff : ℚ) * (10 : ℚ) ^ a.exp10

/-- Embedded `decimal.Decimal` object: finite, ±Infinity, or NaN
(`signaling = true` for `sNaN`). -/
inductive PyDec where
  | finite (f : DecFin)
  | inf (neg : Bool)
  | nan (signaling : Bool)
deriving DecidableEq, Repr

instance {ε α : Type} [DecidableEq ε] [DecidableEq α] : DecidableEq (Except ε α) :=
  fun a b =>
    match a, b with
    | .error e, .error f =>
      if h : e = f then .isTrue (by rw [h]) else .isFalse (by simp [h])
    | .error _, .ok _ => .isFalse (by simp)
    | .ok _, .error _ => .isFalse (by simp)
    | .ok x, .ok y =>
      if h : x = y then .isTrue (by rw [h]) else .isFalse (by simp [h])

/-- Characters treated as strippable whitespace by the `Decimal`
constructor. -/
def pyWhitespace (c : Char) : Bool :=
  c = ' ' || c = '\t' || c = '\n' || c = '\r' || c = '\x0b' || c = '\x0c'

/-- Strip leading and trailing whitespace from a character list. -/
def trimWs (l : List Char) : List Char :=
  ((l.dropWhile pyWhitespace).reverse.dropWhile pyWhitespace).reverse

/-- Lowercasing of a character as done by `str.lower` on the ASCII and
Latin-1 letter ranges (these cover every string the program compares). -/
def pyLowerChar (c : Char) : Char :=
  if 'A' ≤ c ∧ c ≤ 'Z' then Char.ofNat (c.toNat + 32)
  else if 0xC0 ≤ c.toNat ∧ c.toNat ≤ 0xDE ∧ c.toNat ≠ 0xD7 then
    Char.ofNat (c.toNat + 32)
  else c

/-- Embedding of Python `str.lower`. -/
def pyLower (s : String) : String :=
  ⟨s.data.map pyLowerChar⟩

/-- Decimal digit test. -/
def isDigitCh (c : Char) : Bool :=
  '0' ≤ c && c ≤ '9'

/-- Numeric value of a digit list (most significant first). -/
def digitsToNat (l : List Char) : Nat :=
  l.foldl (fun a c => a * 10 + (c.toNat - 48)) 0

/-- Consume an optional sign; returns `true` for a leading minus. -/
def parseSign : List Char → Bool × List Char
  | '+' :: r => (false, r)
  | '-' :: r => (true, r)
  | r => (false, r)

/-- Parse the mantissa `digits [. digits]` part of a numeric string into
(coefficient digits, number of fractional digits); at least one digit must
be present. -/
def parseMantissa (l : List Char) : Option (Nat × Nat) :=
  let ip := l.takeWhile isDigitCh
  match l.dropWhile isDigitCh with
  | [] => if ip = [] then none else some (digitsToNat ip, 0)
  | '.' :: fp =>
    if fp.all isDigitCh ∧ (ip ≠ [] ∨ fp ≠ []) then
      some (digitsToNat (ip ++ fp), fp.length)
    else none
  | _ => none

/-- Split a (lowercased) numeric string at the exponent indicator `e`. -/
def splitAtE (l : List Char) : List Char × Option (List Char) :=
  match l.dropWhile (· ≠ 'e') with
  | [] => (l.takeWhile (· ≠ 'e'), none)
  | _ :: r => (l.takeWhile (· ≠ 'e'), some r)

/-- Parse an exponent: optional sign followed by at least one digit. -/
def parseExp (l : List Char) : Option Int :=
  let (neg, r) := parseSign l
  if r ≠ [] ∧ r.all isDigitCh then
    some (if neg then -(digitsToNat r : Int) else (digitsToNat r : Int))
  else none

/-- Recognize the special values `Infinity`/`Inf`, `NaN` and `sNaN`
(already lowercased, sign already consumed; NaN payload digits allowed). -/
def parseSpecial (neg : Bool) (r : List Char) : Option PyDec :=
  if r = "infinity".data ∨ r = "inf".data then some (.inf neg)
  else if r.take 3 = "nan".data ∧ (r.drop 3).all isDigitCh then
    some (.nan false)
  else if r.take 4 = "snan".data ∧ (r.drop 4).all isDigitCh then
    some (.nan true)
  else none

/-- Grammar of the `decimal.Decimal` string constructor: strip whitespace
and underscores, lowercase, then `[sign] (numeric-value | infinity | nan)`
where `numeric-value = digits [. digits] [e [sign] digits]`. -/
def parseDecString (s : String) : Option PyDec :=
  let cs := (trimWs (s.data.filter (· ≠ '_'))).map pyLowerChar
  let (neg, r) := parseSign cs
  match parseSpecial neg r with
  | some d => some d
  | none =>
    match splitAtE r with
    | (m, eo) =>
      match parseMantissa m, eo with
      | some (c, f), none =>
        some (.finite ⟨if neg then -(c : Int) else (c : Int), -(f : Int)⟩)
      | some (c, f), some el =>
        match parseExp el with
        | some e =>
          some (.finite ⟨if neg then -(c : Int) else (c : Int), e - (f : Int)⟩)
        | none => none
      | none, _ => none

/-- Embedding of the `Decimal(monto_str)` constructor call: a malformed
string raises `decimal.InvalidOperation`. -/
def pyDecimalOfString (s : String) : Except PyExc PyDec :=
  match parseDecString s with
  | some d => .ok d
  | none => .error .invalidOperation

/-- `validar_monto` from `movimientos.py`: calls `Decimal(monto_str)`
inside `try … except ValueError`.  Since the constructor raises
`InvalidOperation` (never `ValueError`), the `except` branch returning
`None` is unreachable and the exception propagates to the caller. -/
def validar_monto (monto_str : String) (id_transaccion : String) :
    Except PyExc (Option PyDec) :=
  match pyDecimalOfString monto_str with
  | .ok d => .ok (some d)
  | .error e => if e = PyExc.valueError then .ok none else .error e

/-- `clasificar_transaccion` from `movimientos.py`. -/
def clasificar_transaccion (tipo : String) : String :=
  let tipo_lower := pyLower tipo
  if tipo_lower = "crédito" ∨ tipo_lower = "credito" then "credito"
  else if tipo_lower = "débito" ∨ tipo_lower = "debito" then "debito"
  else "desconocido"

/-- Addition on `Decimal` objects (`suma += monto`): NaN propagates
quietly, `sNaN` and `Inf + (-Inf)` raise `InvalidOperation`. -/
def decAdd : PyDec → PyDec → Except PyExc PyDec
  | .nan true, _ => .error .invalidOperation
  | _, .nan true => .error .invalidOperation
  | .nan false, _ => .ok (.nan false)
  | _, .nan false => .ok (.nan false)
  | .inf s, .inf t => if s = t then .ok (.inf s) else .error .invalidOperation
  | .inf s, .finite _ => .ok (.inf s)
  | .finite _, .inf t => .ok (.inf t)
  | .finite p, .finite q => .ok (.finite (p.add q))

/-- Subtraction on `Decimal` objects (`balance = creditos - debitos`). -/
def decSub : PyDec → PyDec → Except PyExc PyDec
  | .nan true, _ => .error .invalidOperation
  | _, .nan true => .error .invalidOperation
  | .nan false, _ => .ok (.nan false)
  | _, .nan false => .ok (.nan false)
  | .inf s, .inf t => if s = t then .error .invalidOperation else .ok (.inf s)
  | .inf s, .finite _ => .ok (.inf s)
  | .finite _, .inf t => .ok (.inf !t)
  | .finite p, .finite q => .ok (.finite (p.sub q))

/-- Ordering comparison `a > b` on `Decimal` objects: any NaN operand
signals `InvalidOperation` (Python ordering comparisons on NaN raise). -/
def decGt : PyDec → PyDec → Except PyExc Bool
  | .nan _, _ => .error .invalidOperation
  | _, .nan _ => .error .invalidOperation
  | .inf false, .inf false => .ok false
  | .inf false, _ => .ok true
  | .inf true, _ => .ok false
  | .finite _, .inf false => .ok false
  | .finite _, .inf true => .ok true
  | .finite p, .finite q => .ok (decide (DecFin.lt q p))

/-- One CSV data row as produced by `csv.DictReader` (only the three
required fields are ever read by the program). -/
structure Transaccion where
  id : String
  tipo : String
  monto : String
deriving DecidableEq, Repr

/-- Mutable locals of the loop in `calcular_estadisticas`. -/
structure AggState where
  suma_creditos : PyDec
  suma_debitos : PyDec
  transaccion_mayor_id : Option String
  transaccion_mayor_monto : PyDec
  contador_creditos : Nat
  contador_debitos : Nat
deriving DecidableEq, Repr

/-- Initial accumulator of `calcular_estadisticas`:
sums `Decimal('0')`, largest transaction `{'id': None, 'monto': Decimal('0')}`. -/
def initAgg : AggState :=
  { suma_creditos := .finite ⟨0, 0⟩
    suma_debitos := .finite ⟨0, 0⟩
    transaccion_mayor_id := none
    transaccion_mayor_monto := .finite ⟨0, 0⟩
    contador_creditos := 0
    contador_debitos := 0 }

/-- One iteration of the `for transaccion in transacciones` loop of
`calcular_estadisticas`: validate the amount (`continue` on `None`),
classify, update the credit/debit sum and counter, then compare against
the running largest transaction.  Any uncaught exception aborts the
whole computation. -/
def procesarTransaccion (st : AggState) (t : Transaccion) :
    Except PyExc AggState :=
  match validar_monto t.monto t.id with
  | .error e => .error e
  | .ok none => .ok st
  | .ok (some monto) =>
    let tipo := clasificar_transaccion t.tipo
    let upd : Except PyExc AggState :=
      if tipo = "credito" then
        match decAdd st.suma_creditos monto with
        | .error e => .error e
        | .ok s =>
          .ok { st with suma_creditos := s
                        contador_creditos := st.contador_creditos + 1 }
      else if tipo = "debito" then
        match decAdd st.suma_debitos monto with
        | .error e => .error e
        | .ok s =>
          .ok { st with suma_debitos := s
                        contador_debitos := st.contador_debitos + 1 }
      else .ok st
    match upd with
    | .error e => .error e
    | .ok st2 =>
      match decGt monto st2.transaccion_mayor_monto with
      | .error e => .error e
      | .ok true =>
        .ok { st2 with transaccion_mayor_id := some t.id
                       transaccion_mayor_monto := monto }
      | .ok false => .ok st2

/-- The whole loop of `calcular_estadisticas`, in input order. -/
def aggLoop : AggState → List Transaccion → Except PyExc AggState
  | st, [] => .ok st
  | st, t :: rest =>
    match procesarTransaccion st t with
    | .error e => .error e
    | .ok st2 => aggLoop st2 rest

/-- The dictionary returned by `calcular_estadisticas`. -/
structure Stats where
  suma_creditos : PyDec
  suma_debitos : PyDec
  balance_final : PyDec
  transaccion_mayor_id : Option String
  transaccion_mayor_monto : PyDec
  contador_creditos : Nat
  contador_debitos : Nat
deriving DecidableEq, Repr

/-- `calcular_estadisticas` from `movimientos.py`: run the loop, then
`balance_final = suma_creditos - suma_debitos`, and return the stats
dictionary. -/
def calcular_estadisticas (transacciones : List Transaccion) :
    Except PyExc Stats :=
  match aggLoop initAgg transacciones with
  | .error e => .error e
  | .ok st =>
    match decSub st.suma_creditos st.suma_debitos with
    | .error e => .error e
    | .ok bal =>
      .ok { suma_creditos := st.suma_creditos
            suma_debitos := st.suma_debitos
            balance_final := bal
            transaccion_mayor_id := st.transaccion_mayor_id
            transaccion_mayor_monto := st.transaccion_mayor_monto
            contador_creditos := st.contador_creditos
            contador_debitos := st.contador_debitos }

/-- Digit string of a natural number (Python `repr` of the coefficient). -/
def natStr (n : Nat) : String :=
  toString n

/-- Left-pad a string with zeros to length `k`. -/
def padZeros (k : Nat) (s : String) : String :=
  ⟨List.replicate (k - s.data.length) '0' ++ s.data⟩

/-- Python `Decimal.__str__` on a finite value (the `to-sci-string`
algorithm of the decimal specification): plain notation when
`exp10 ≤ 0` and the adjusted exponent is at least `-6`, scientific
notation otherwise. -/
def pyDecFinStr (d : DecFin) : String :=
  let sgn := if d.coeff < 0 then "-" else ""
  let ds := natStr d.coeff.natAbs
  let n : Int := (ds.data.length : Int)
  let e := d.exp10
  let adjusted := e + n - 1
  if e ≤ 0 ∧ -6 ≤ adjusted then
    if e = 0 then sgn ++ ds
    else if 0 < n + e then
      sgn ++ ⟨ds.data.take (n + e).toNat⟩ ++ "." ++ ⟨ds.data.drop (n + e).toNat⟩
    else
      sgn ++ "0." ++ padZeros (-e).toNat ds
  else
    let expStr := (if 0 ≤ adjusted then "+" else "") ++ toString adjusted
    if ds.data.length = 1 then sgn ++ ds ++ "E" ++ expStr
    else sgn ++ ⟨ds.data.take 1⟩ ++ "." ++ ⟨ds.data.drop 1⟩ ++ "E" ++ expStr

/-- Python `str` on an embedded `Decimal` object. -/
def pyDecStr : PyDec → String
  | .finite f => pyDecFinStr f
  | .inf false => "Infinity"
  | .inf true => "-Infinity"
  | .nan false => "NaN"
  | .nan true => "sNaN"

/-- Python `str` of the `mayor['id']` slot inside an f-string:
`None` prints as `"None"`. -/
def idStr : Option String → String
  | none => "None"
  | some s => s

/-- Text printed to the console by `generar_reporte` (each `print`
appends a newline; the first line is `print("\n===== … =====")`). -/
def generar_reporte_output (e : Stats) : String :=
  "\n===== REPORTE DE TRANSACCIONES BANCARIAS =====\n" ++
  ("\nResumen de Montos:\n" ++
  ("  - Total Créditos: $" ++ pyDecStr e.suma_creditos ++ "\n" ++
  ("  - Total Débitos: $" ++ pyDecStr e.suma_debitos ++ "\n" ++
  ("Balance Final: $" ++ pyDecStr e.balance_final ++ "\n" ++
  ("\nTransacción de Mayor Monto: ID " ++ idStr e.transaccion_mayor_id ++
     " con $" ++ pyDecStr e.transaccion_mayor_monto ++ "\n" ++
  ("\nConteo de Transacciones:\n" ++
  ("  - Créditos: " ++ toString e.contador_creditos ++ "\n" ++
  ("  - Débitos: " ++ toString e.contador_debitos ++ "\n" ++
  ("  - Total: " ++ toString (e.contador_creditos + e.contador_debitos) ++ "\n")))))))))

/-- Text written to the output file by `guardar_reporte` (the header is
written without the leading newline used by the console variant). -/
def guardar_reporte_contents (e : Stats) : String :=
  "===== REPORTE DE TRANSACCIONES BANCARIAS =====\n" ++
  ("\nResumen de Montos:\n" ++
  ("  - Total Créditos: $" ++ pyDecStr e.suma_creditos ++ "\n" ++
  ("  - Total Débitos: $" ++ pyDecStr e.suma_debitos ++ "\n" ++
  ("Balance Final: $" ++ pyDecStr e.balance_final ++ "\n" ++
  ("\nTransacción de Mayor Monto: ID " ++ idStr e.transaccion_mayor_id ++
     " con $" ++ pyDecStr e.transaccion_mayor_monto ++ "\n" ++
  ("\nConteo de Transacciones:\n" ++
  ("  - Créditos: " ++ toString e.contador_creditos ++ "\n" ++
  ("  - Débitos: " ++ toString e.contador_debitos ++ "\n" ++
  ("  - Total: " ++ toString (e.contador_creditos + e.contador_debitos) ++ "\n")))))))))

/-- `leer_archivo_csv` from `movimientos.py`, modelled on the data read
by `csv.DictReader` (header field list plus data rows): the file is
rejected — `None` is returned, no rows — unless `{id, tipo, monto}` is a
subset of the header fields.  File-system failures (file not found,
I/O errors) are outside this embedding. -/
def leer_archivo_csv (fieldnames : List String) (rows : List Transaccion) :
    Option (List Transaccion) :=
  if "id" ∈ fieldnames ∧ "tipo" ∈ fieldnames ∧ "monto" ∈ fieldnames then
    some rows
  else none

/-- `procesar_archivo_csv` from `movimientos.py`: load the file (return
with no report if the loader failed), compute the statistics, and emit
the console report.  The result is the console report text, `none` when
no report was produced; the interactive save prompt is glue outside this
embedding. -/
def procesar_archivo_csv (fieldnames : List String)
    (rows : List Transaccion) : Except PyExc (Option String) :=
  match leer_archivo_csv fieldnames rows with
  | none => .ok none
  | some transacciones =>
    match calcular_estadisticas transacciones with
    | .error e => .error e
    | .ok estadisticas => .ok (some (generar_reporte_output estadisticas))

/-- Finite decimal produced by parsing `s`, when the parse succeeds with a
finite value. -/
def finVal (s : String) : Option DecFin :=
  match parseDecString s with
  | some (PyDec.finite q) => some q
  | _ => none

/-- Parsed finite amount of a row (defaulting to `0`; meaningful only for
rows whose `monto` parses to a finite decimal). -/
def pval (t : Transaccion) : DecFin :=
  (finVal t.monto).getD ⟨0, 0⟩

/-- Pure-state mirror of the aggregation loop locals, with finite decimal
sums (applicable whenever every row parses to a finite decimal). -/
structure PState where
  sc : DecFin
  sd : DecFin
  mid : Option String
  mq : DecFin
  cc : Nat
  cd : Nat
deriving DecidableEq, Repr

/-- Initial pure state. -/
def pinit : PState :=
  ⟨⟨0, 0⟩, ⟨0, 0⟩, none, ⟨0, 0⟩, 0, 0⟩

/-- Pure mirror of one loop iteration. -/
def pstep (st : PState) (t : Transaccion) : PState :=
  let q := pval t
  let st1 :=
    if clasificar_transaccion t.tipo = "credito" then
      { st with sc := st.sc.add q, cc := st.cc + 1 }
    else if clasificar_transaccion t.tipo = "debito" then
      { st with sd := st.sd.add q, cd := st.cd + 1 }
    else st
  if DecFin.lt st1.mq q then { st1 with mid := some t.id, mq := q } else st1

/-- Pure mirror of the whole loop. -/
def pfold : PState → List Transaccion → PState
  | st, [] => st
  | st, t :: r => pfold (pstep st t) r

/-- Injection of a pure state into the exception-carrying loop state. -/
def embedP (p : PState) : AggState :=
  { suma_creditos := .finite p.sc
    suma_debitos := .finite p.sd
    transaccion_mayor_id := p.mid
    transaccion_mayor_monto := .finite p.mq
    contador_creditos := p.cc
    contador_debitos := p.cd }

/-- Statistics dictionary determined by a final pure state. -/
def statsOfP (p : PState) : Stats :=
  { suma_creditos := .finite p.sc
    suma_debitos := .finite p.sd
    balance_final := .finite (p.sc.sub p.sd)
    transaccion_mayor_id := p.mid
    transaccion_mayor_monto := .finite p.mq
    contador_creditos := p.cc
    contador_debitos := p.cd }

/-- Running largest-transaction pair (id, amount), tracked exactly as the
loop does: strict greater-than against the current maximum. -/
def mfold : Option String × DecFin → List Transaccion → Option String × DecFin
  | m, [] => m
  | m, t :: r => mfold (if DecFin.lt m.2 (pval t) then (some t.id, pval t) else m) r

lemma valQ_rescale (a : DecFin) (m : Int) (h : m ≤ a.exp10) :
    (a.rescale m : ℚ) * (10 : ℚ) ^ m = valQ a := by
  unfold DecFin.rescale valQ
  push_cast
  rw [← zpow_natCast (10 : ℚ) (a.exp10 - m).toNat,
    Int.toNat_of_nonneg (by omega), mul_assoc,
    ← zpow_add₀ (by norm_num : (10 : ℚ) ≠ 0), sub_add_cancel]

lemma valQ_lt_iff (a b : DecFin) : DecFin.lt a b ↔ valQ a < valQ b := by
  unfold DecFin.lt
  rw [← valQ_rescale a (min a.exp10 b.exp10) (min_le_left _ _),
    ← valQ_rescale b (min a.exp10 b.exp10) (min_le_right _ _),
    mul_lt_mul_right (zpow_pos (by norm_num) _), Int.cast_lt]

lemma valQ_addExact (a b : DecFin) : valQ (a.addExact b) = valQ a + valQ b := by
  unfold DecFin.addExact
  rw [valQ]
  push_cast
  rw [add_mul, valQ_rescale a _ (min_le_left _ _), valQ_rescale b _ (min_le_right _ _)]

lemma valQ_subExact (a b : DecFin) : valQ (a.subExact b) = valQ a - valQ b := by
  unfold DecFin.subExact
  rw [valQ]
  push_cast
  rw [sub_mul, valQ_rescale a _ (min_le_left _ _), valQ_rescale b _ (min_le_right _ _)]

lemma roundMag_eq_self (n : Nat) (h : numDigits n ≤ decPrec) :
    roundMag n = (n, 0) := by
  unfold roundMag
  rw [if_pos h]

lemma roundDec_eq_self (d : DecFin) (h : numDigits d.coeff.natAbs ≤ decPrec) :
    roundDec d = d := by
  obtain ⟨c, e⟩ := d
  unfold roundDec
  rw [roundMag_eq_self _ h]
  simp only [DecFin.mk.injEq]
  constructor
  · split_ifs with hc <;> omega
  · omega

lemma roundDec_coeff_nonneg (d : DecFin) (h : 0 ≤ d.coeff) :
    0 ≤ (roundDec d).coeff := by
  unfold roundDec
  simp only []
  rw [if_neg (not_lt.mpr h)]
  exact Int.natCast_nonneg _

lemma addExact_coeff_nonneg (a b : DecFin) (ha : 0 ≤ a.coeff)
    (hb : 0 ≤ b.coeff) : 0 ≤ (a.addExact b).coeff := by
  unfold DecFin.addExact DecFin.rescale
  exact add_nonneg
    (mul_nonneg ha (pow_nonneg (by norm_num) _))
    (mul_nonneg hb (pow_nonneg (by norm_num) _))

lemma add_coeff_nonneg (a b : DecFin) (ha : 0 ≤ a.coeff) (hb : 0 ≤ b.coeff) :
    0 ≤ (a.add b).coeff :=
  roundDec_coeff_nonneg _ (addExact_coeff_nonneg a b ha hb)

lemma valQ_nonneg (a : DecFin) (h : 0 ≤ a.coeff) : 0 ≤ valQ a :=
  mul_nonneg (by exact_mod_cast h) (zpow_nonneg (by norm_num) _)

lemma valQ_pos (a : DecFin) (h : 0 < a.coeff) : 0 < valQ a :=
  mul_pos (by exact_mod_cast h) (zpow_pos (by norm_num) _)

lemma valQ_zero : valQ ⟨0, 0⟩ = 0 := by
  simp [valQ]

lemma finVal_parse {s : String} {q : DecFin} (h : finVal s = some q) :
    parseDecString s = some (PyDec.finite q) := by
  unfold finVal at h
  cases hx : parseDecString s with
  | none => rw [hx] at h; simp at h
  | some d =>
    cases d with
    | finite f => rw [hx] at h; simp at h; rw [h]
    | inf n => rw [hx] at h; simp at h
    | nan n => rw [hx] at h; simp at h

lemma validar_monto_finite {s : String} {q : DecFin} (idt : String)
    (h : finVal s = some q) :
    validar_monto s idt = .ok (some (.finite q)) := by
  unfold validar_monto pyDecimalOfString
  rw [finVal_parse h]

lemma pval_eq {t : Transaccion} {q : DecFin} (h : finVal t.monto = some q) :
    pval t = q := by
  unfold pval
  rw [h]
  rfl

lemma procesar_eq_pstep (st : PState) (t : Transaccion) (q : DecFin)
    (h : finVal t.monto = some q) :
    procesarTransaccion (embedP st) t = .ok (embedP (pstep st t)) := by
  have hq : pval t = q := pval_eq h
  unfold procesarTransaccion pstep
  rw [validar_monto_finite t.id h, hq]
  by_cases hc : clasificar_transaccion t.tipo = "credito"
  · simp only [hc, if_pos, embedP, decAdd, decGt]
    split_ifs <;> simp_all [embedP]
  · by_cases hd : clasificar_transaccion t.tipo = "debito"
    · simp only [hc, hd, if_neg, if_pos, embedP, decAdd, decGt]
      split_ifs <;> simp_all [embedP]
    · simp only [hc, hd, if_neg, embedP, decAdd, decGt]
      split_ifs <;> simp_all [embedP]

lemma aggLoop_eq_pfold (l : List Transaccion) : ∀ st : PState,
    (∀ t ∈ l, (finVal t.monto).isSome) →
    aggLoop (embedP st) l = .ok (embedP (pfold st l)) := by
  induction l with
  | nil => intro st _; rfl
  | cons t r ih =>
    intro st h
    obtain ⟨q, hq⟩ := Option.isSome_iff_exists.mp (h t (List.mem_cons_self t r))
    show (match procesarTransaccion (embedP st) t with
      | Except.error e => Except.error e
      | Except.ok st2 => aggLoop st2 r) = _
    rw [procesar_eq_pstep st t q hq]
    exact ih (pstep st t) fun x hx => h x (List.mem_cons_of_mem _ hx)

lemma calcular_eq_pfold (l : List Transaccion)
    (h : ∀ t ∈ l, (finVal t.monto).isSome) :
    calcular_estadisticas l = .ok (statsOfP (pfold pinit l)) := by
  unfold calcular_estadisticas
  have hinit : initAgg = embedP pinit := rfl
  rw [hinit, aggLoop_eq_pfold l pinit h]
  rfl

lemma pstep_mid_mq (st : PState) (t : Transaccion) :
    ((pstep st t).mid, (pstep st t).mq) =
      (if DecFin.lt st.mq (pval t) then (some t.id, pval t) else (st.mid, st.mq)) := by
  unfold pstep
  by_cases hc : clasificar_transaccion t.tipo = "credito" <;>
    by_cases hd : clasificar_transaccion t.tipo = "debito" <;>
      simp only [hc, hd, if_pos, if_neg, if_true, if_false] <;>
        split_ifs <;> simp_all

lemma pfold_mayor (l : List Transaccion) : ∀ st : PState,
    ((pfold st l).mid, (pfold st l).mq) = mfold (st.mid, st.mq) l := by
  induction l with
  | nil => intro st; rfl
  | cons t r ih =>
    intro st
    show ((pfold (pstep st t) r).mid, (pfold (pstep st t) r).mq) =
      mfold (if DecFin.lt st.mq (pval t) then (some t.id, pval t) else (st.mid, st.mq)) r
    rw [ih (pstep st t), pstep_mid_mq]

lemma mfold_spec (l : List Transaccion) : ∀ (mid : Option String) (mq : DecFin),
    (mfold (mid, mq) l = (mid, mq) ∧ ∀ t ∈ l, valQ (pval t) ≤ valQ mq) ∨
    (∃ pre x post, l = pre ++ x :: post ∧
      mfold (mid, mq) l = (some x.id, pval x) ∧
      valQ mq < valQ (pval x) ∧
      (∀ t ∈ pre, valQ (pval t) < valQ (pval x)) ∧
      (∀ t ∈ post, valQ (pval t) ≤ valQ (pval x))) := by
  induction l with
  | nil => intro mid mq; exact Or.inl ⟨rfl, by simp⟩
  | cons t r ih =>
    intro mid mq
    by_cases h : DecFin.lt mq (pval t)
    · have h' := (valQ_lt_iff _ _).mp h
      have step : mfold (mid, mq) (t :: r) = mfold (some t.id, pval t) r := by
        simp [mfold, h]
      rcases ih (some t.id) (pval t) with ⟨heq, hall⟩ |
        ⟨pre, x, post, hl, hres, hlt, hpre, hpost⟩
      · exact Or.inr ⟨[], t, r, by simp, by rw [step, heq], h', by simp, hall⟩
      · refine Or.inr ⟨t :: pre, x, post, by rw [hl, List.cons_append], by rw [step, hres],
          lt_trans h' hlt, ?_, hpost⟩
        intro s hs
        rcases List.mem_cons.mp hs with rfl | hs
        · exact hlt
        · exact hpre s hs
    · have h' : valQ (pval t) ≤ valQ mq := by
        by_contra hc
        push_neg at hc
        exact h ((valQ_lt_iff _ _).mpr hc)
      have step : mfold (mid, mq) (t :: r) = mfold (mid, mq) r := by
        simp [mfold, h]
      rcases ih mid mq with ⟨heq, hall⟩ |
        ⟨pre, x, post, hl, hres, hlt, hpre, hpost⟩
      · refine Or.inl ⟨by rw [step, heq], ?_⟩
        intro s hs
        rcases List.mem_cons.mp hs with rfl | hs
        · exact h'
        · exact hall s hs
      · refine Or.inr ⟨t :: pre, x, post, by rw [hl, List.cons_append], by rw [step, hres], hlt, ?_, hpost⟩
        intro s hs
        rcases List.mem_cons.mp hs with rfl | hs
        · exact lt_of_le_of_lt h' hlt
        · exact hpre s hs

lemma pstep_sc_sd (st : PState) (t : Transaccion) :
    ((pstep st t).sc = st.sc ∨ (pstep st t).sc = st.sc.add (pval t)) ∧
    ((pstep st t).sd = st.sd ∨ (pstep st t).sd = st.sd.add (pval t)) := by
  unfold pstep
  by_cases hc : clasificar_transaccion t.tipo = "credito" <;>
    by_cases hd : clasificar_transaccion t.tipo = "debito" <;>
      simp only [hc, hd, if_pos, if_neg, if_true, if_false] <;>
        split_ifs <;> simp_all

lemma pfold_sums_nonneg (l : List Transaccion) : ∀ st : PState,
    (∀ t ∈ l, 0 ≤ (pval t).coeff) →
    0 ≤ st.sc.coeff → 0 ≤ st.sd.coeff →
    0 ≤ (pfold st l).sc.coeff ∧ 0 ≤ (pfold st l).sd.coeff := by
  induction l with
  | nil => intro st _ h1 h2; exact ⟨h1, h2⟩
  | cons t r ih =>
    intro st h h1 h2
    have hq : 0 ≤ (pval t).coeff := h t (List.mem_cons_self t r)
    obtain ⟨hsc, hsd⟩ := pstep_sc_sd st t
    refine ih (pstep st t) (fun x hx => h x (List.mem_cons_of_mem _ hx)) ?_ ?_
    · rcases hsc with hs | hs <;> rw [hs]
      · exact h1
      · exact add_coeff_nonneg _ _ h1 hq
    · rcases hsd with hs | hs <;> rw [hs]
      · exact h2
      · exact add_coeff_nonneg _ _ h2 hq

lemma mayor_decomposition (l : List Transaccion)
    (hparse : ∀ t ∈ l, (finVal t.monto).isSome)
    (hpos : ∃ t ∈ l, 0 < (pval t).coeff)
    (s : Stats) (hs : calcular_estadisticas l = .ok s) :
    ∃ pre x post, l = pre ++ x :: post ∧
      s.transaccion_mayor_id = some x.id ∧
      s.transaccion_mayor_monto = PyDec.finite (pval x) ∧
      (∀ t ∈ pre, valQ (pval t) < valQ (pval x)) ∧
      (∀ t ∈ post, valQ (pval t) ≤ valQ (pval x)) ∧
      0 < valQ (pval x) := by
  rw [calcular_eq_pfold l hparse] at hs
  simp only [Except.ok.injEq] at hs
  subst hs
  have hm : ((pfold pinit l).mid, (pfold pinit l).mq) =
      mfold (none, ⟨0, 0⟩) l := pfold_mayor l pinit
  rcases mfold_spec l none ⟨0, 0⟩ with ⟨heq, hall⟩ |
    ⟨pre, x, post, hl, hres, hlt, hpre, hpost⟩
  · obtain ⟨t, ht, hc⟩ := hpos
    have h1 : 0 < valQ (pval t) := valQ_pos _ hc
    have h2 := hall t ht
    rw [valQ_zero] at h2
    linarith
  · rw [hres] at hm
    have hmid : (pfold pinit l).mid = some x.id := by
      have := congrArg Prod.fst hm
      simpa using this
    have hmq : (pfold pinit l).mq = pval x := by
      have := congrArg Prod.snd hm
      simpa using this
    rw [valQ_zero] at hlt
    exact ⟨pre, x, post, hl, by simp [statsOfP, hmid], by simp [statsOfP, hmq],
      hpre, hpost, hlt⟩

/-- C1: on a row whose raw `monto` cannot be parsed as a decimal number,
the spec (and the function's own docstring) promise a caught Invalid-Amount
error and a skipped row, but `validar_monto` catches only `ValueError`
while `Decimal("abc")` raises `decimal.InvalidOperation`; the exception
propagates and the whole aggregation aborts instead of skipping the row. -/
theorem C1_invalid_monto_aborts_run :
    validar_monto "abc" "2" = .error PyExc.invalidOperation ∧
    calcular_estadisticas
      [⟨"1", "credito", "50"⟩, ⟨"2", "credito", "abc"⟩, ⟨"3", "credito", "75"⟩] =
      .error PyExc.invalidOperation := by
  constructor
  · decide
  · decide

/-- The concrete input exercising C2 and its aggregation result. -/
def exC2 : List Transaccion :=
  [⟨"1", "transferencia", "500"⟩, ⟨"2", "credito", "100"⟩]

/-- Statistics computed on `exC2`. -/
def stC2 : Stats :=
  { suma_creditos := .finite ⟨100, 0⟩
    suma_debitos := .finite ⟨0, 0⟩
    balance_final := .finite ⟨100, 0⟩
    transaccion_mayor_id := some "1"
    transaccion_mayor_monto := .finite ⟨500, 0⟩
    contador_creditos := 1
    contador_debitos := 0 }

/-- C2 (counterexample): an unknown-category row with the strictly
greatest parsed amount IS reported as the largest transaction — row 1 is
classified `desconocido` yet ends up as `transaccion_mayor`. -/
theorem C2_counterexample :
    calcular_estadisticas exC2 = .ok stC2 ∧
    clasificar_transaccion "transferencia" = "desconocido" ∧
    stC2.transaccion_mayor_id = some "1" := by
  constructor
  · decide
  · constructor
    · decide
    · decide

/-- C2 (amended): rows classified `desconocido` are NOT excluded from the
largest-transaction comparison: whenever every amount parses to a finite
decimal and some row has a positive amount, the reported largest
transaction is the first row of ANY category (including `desconocido`)
whose amount strictly exceeds every earlier one and is not exceeded
later. -/
theorem C2_unknown_rows_participate_in_max (l : List Transaccion)
    (hparse : ∀ t ∈ l, (finVal t.monto).isSome)
    (hpos : ∃ t ∈ l, 0 < (pval t).coeff)
    (s : Stats) (hs : calcular_estadisticas l = .ok s) :
    ∃ pre x post, l = pre ++ x :: post ∧
      s.transaccion_mayor_id = some x.id ∧
      s.transaccion_mayor_monto = PyDec.finite (pval x) ∧
      (∀ t ∈ pre, valQ (pval t) < valQ (pval x)) ∧
      (∀ t ∈ post, valQ (pval t) ≤ valQ (pval x)) := by
  obtain ⟨pre, x, post, h1, h2, h3, h4, h5, _⟩ :=
    mayor_decomposition l hparse hpos s hs
  exact ⟨pre, x, post, h1, h2, h3, h4, h5⟩

theorem C2_witness :
    (∀ t ∈ exC2, (finVal t.monto).isSome) ∧
    (∃ pre x post, exC2 = pre ++ x :: post ∧
      stC2.transaccion_mayor_id = some x.id ∧
      stC2.transaccion_mayor_monto = PyDec.finite (pval x) ∧
      (∀ t ∈ pre, valQ (pval t) < valQ (pval x)) ∧
      (∀ t ∈ post, valQ (pval t) ≤ valQ (pval x))) :=
  ⟨by decide,
   C2_unknown_rows_participate_in_max exC2 (by decide)
     ⟨⟨"1", "transferencia", "500"⟩, by decide, by decide⟩ stC2 (by decide)⟩

/-- Single-row input showing that a classified row with a non-positive
amount never becomes the largest transaction. -/
def exC3neg : List Transaccion :=
  [⟨"1", "credito", "-5"⟩]

/-- C3 (counterexample): one classified (credit) row whose amount parses
to `-5`; the claim demands that the largest transaction be this row
(id 1, amount -5), but the running maximum starts at `Decimal('0')` with a
strict comparison, so the result keeps id `None` and amount `0`. -/
theorem C3_counterexample :
    calcular_estadisticas exC3neg =
      .ok { suma_creditos := .finite ⟨-5, 0⟩
            suma_debitos := .finite ⟨0, 0⟩
            balance_final := .finite ⟨-5, 0⟩
            transaccion_mayor_id := none
            transaccion_mayor_monto := .finite ⟨0, 0⟩
            contador_creditos := 1
            contador_debitos := 0 } ∧
    clasificar_transaccion "credito" = "credito" ∧
    finVal "-5" = some ⟨-5, 0⟩ := by
  refine ⟨by decide, by decide, by decide⟩

/-- The spec's largest-transaction example input. -/
def exC3 : List Transaccion :=
  [⟨"1", "credito", "50"⟩, ⟨"2", "debito", "200"⟩, ⟨"3", "credito", "75"⟩]

/-- Statistics computed on `exC3`. -/
def stC3 : Stats :=
  { suma_creditos := .finite ⟨125, 0⟩
    suma_debitos := .finite ⟨200, 0⟩
    balance_final := .finite ⟨-75, 0⟩
    transaccion_mayor_id := some "2"
    transaccion_mayor_monto := .finite ⟨200, 0⟩
    contador_creditos := 2
    contador_debitos := 1 }

/-- C3 (amended): for every list of classified (credit/debit) rows whose
amounts parse to finite decimals, PROVIDED some row has a strictly
positive amount, `transaccion_mayor` is the id and amount of the row with
the maximum parsed amount across both categories, with strict greater-than
so that on ties the first row in input order is kept (every earlier row is
strictly smaller, no later row is larger); without a positive amount the
initial `{'id': None, 'monto': 0}` survives instead. -/
theorem C3_largest_transaction (l : List Transaccion)
    (hparse : ∀ t ∈ l, (finVal t.monto).isSome)
    (hclass : ∀ t ∈ l, clasificar_transaccion t.tipo = "credito" ∨
      clasificar_transaccion t.tipo = "debito")
    (hpos : ∃ t ∈ l, 0 < (pval t).coeff)
    (s : Stats) (hs : calcular_estadisticas l = .ok s) :
    ∃ pre x post, l = pre ++ x :: post ∧
      s.transaccion_mayor_id = some x.id ∧
      s.transaccion_mayor_monto = PyDec.finite (pval x) ∧
      (∀ t ∈ pre, valQ (pval t) < valQ (pval x)) ∧
      (∀ t ∈ post, valQ (pval t) ≤ valQ (pval x)) ∧
      0 < valQ (pval x) :=
  mayor_decomposition l hparse hpos s hs

theorem C3_witness :
    (∀ t ∈ exC3, (finVal t.monto).isSome) ∧
    stC3.transaccion_mayor_id = some "2" ∧
    stC3.transaccion_mayor_monto = PyDec.finite ⟨200, 0⟩ ∧
    (∃ pre x post, exC3 = pre ++ x :: post ∧
      stC3.transaccion_mayor_id = some x.id ∧
      stC3.transaccion_mayor_monto = PyDec.finite (pval x) ∧
      (∀ t ∈ pre, valQ (pval t) < valQ (pval x)) ∧
      (∀ t ∈ post, valQ (pval t) ≤ valQ (pval x)) ∧
      0 < valQ (pval x)) :=
  ⟨by decide, by decide, by decide,
   C3_largest_transaction exC3 (by decide) (by decide)
     ⟨⟨"1", "credito", "50"⟩, by decide, by decide⟩ stC3 (by decide)⟩

/-- Two-row input with negative amounts in both categories. -/
def exC4 : List Transaccion :=
  [⟨"1", "credito", "-5"⟩, ⟨"2", "debito", "-7"⟩]

/-- C4 (counterexample): amounts are parsed with sign and never clamped,
so a negative credit/debit amount drives the corresponding total below
zero: `total_credits = -5 < 0` and `total_debits = -7 < 0`. -/
theorem C4_counterexample :
    calcular_estadisticas exC4 =
      .ok { suma_creditos := .finite ⟨-5, 0⟩
            suma_debitos := .finite ⟨-7, 0⟩
            balance_final := .finite ⟨2, 0⟩
            transaccion_mayor_id := none
            transaccion_mayor_monto := .finite ⟨0, 0⟩
            contador_creditos := 1
            contador_debitos := 1 } ∧
    valQ ⟨-5, 0⟩ < 0 ∧ valQ ⟨-7, 0⟩ < 0 := by
  refine ⟨by decide, by norm_num [valQ], by norm_num [valQ]⟩

/-- C4 (amended): whenever every row's amount parses to a finite decimal
with non-negative coefficient (i.e. amount ≥ 0), the computed statistics
satisfy `total_credits ≥ 0` and `total_debits ≥ 0`; for negative input
amounts the totals can go negative (see the counterexample). -/
theorem C4_sums_nonneg (l : List Transaccion)
    (h : ∀ t ∈ l, (finVal t.monto).isSome ∧ 0 ≤ (pval t).coeff) :
    ∃ s, calcular_estadisticas l = .ok s ∧
      ∃ c d, s.suma_creditos = .finite c ∧ s.suma_debitos = .finite d ∧
        0 ≤ valQ c ∧ 0 ≤ valQ d := by
  refine ⟨statsOfP (pfold pinit l),
    calcular_eq_pfold l (fun t ht => (h t ht).1), ?_⟩
  obtain ⟨h1, h2⟩ := pfold_sums_nonneg l pinit (fun t ht => (h t ht).2)
    (by decide) (by decide)
  exact ⟨(pfold pinit l).sc, (pfold pinit l).sd, rfl, rfl,
    valQ_nonneg _ h1, valQ_nonneg _ h2⟩

theorem C4_witness :
    (∀ t ∈ ([⟨"1", "credito", "50"⟩, ⟨"2", "debito", "30"⟩] : List Transaccion),
      (finVal t.monto).isSome ∧ 0 ≤ (pval t).coeff) ∧
    (∃ s, calcular_estadisticas
        [⟨"1", "credito", "50"⟩, ⟨"2", "debito", "30"⟩] = .ok s ∧
      ∃ c d, s.suma_creditos = .finite c ∧ s.suma_debitos = .finite d ∧
        0 ≤ valQ c ∧ 0 ≤ valQ d) :=
  ⟨by decide, C4_sums_nonneg _ (by decide)⟩

/-- Input whose exact balance needs more than 28 significant digits:
credit `1E+30`, debit `1`. -/
def exC5big : List Transaccion :=
  [⟨"1", "credito", "1E+30"⟩, ⟨"2", "debito", "1"⟩]

/-- Coefficient `10^27` (28 significant digits) at exponent `3`: the
value `1.000000000000000000000000000E+30` the default context produces
both for `0 + 1E+30` and for `1E+30 - 1`. -/
def bigC : DecFin :=
  ⟨1000000000000000000000000000, 3⟩

/-- Statistics computed on `exC5big`. -/
def stC5big : Stats :=
  { suma_creditos := .finite bigC
    suma_debitos := .finite ⟨1, 0⟩
    balance_final := .finite bigC
    transaccion_mayor_id := some "1"
    transaccion_mayor_monto := .finite ⟨1, 30⟩
    contador_creditos := 1
    contador_debitos := 1 }

/-- C5 (counterexample): with credit `1E+30` and debit `1` the exact
difference `10^30 - 1` needs 30 significant digits, so the default
context rounds it half-even back to
`1.000000000000000000000000000E+30`: the reported balance equals the
credit total although the debit total is `1`, refuting
`final_balance == total_credits - total_debits` exactly for arbitrary
precision inputs. -/
theorem C5_counterexample :
    calcular_estadisticas exC5big = .ok stC5big ∧
    stC5big.balance_final = stC5big.suma_creditos ∧
    valQ bigC ≠ valQ bigC - valQ ⟨1, 0⟩ := by
  refine ⟨by decide, by decide, ?_⟩
  have h : valQ ⟨1, 0⟩ = 1 := by norm_num [valQ]
  rw [h]
  intro hc
  linarith [hc]

/-- C5 (amended): `balance_final` is the result of the single
default-context Decimal subtraction `total_credits − total_debits` — no
clamping, negative allowed, no binary floating-point involvement — namely
the half-even 28-significant-digit rounding of the exact difference; it
equals the exact rational difference whenever that exact difference fits
in 28 significant digits, as in the spec's example
`150.10 − 30.05 = 120.05`. -/
theorem C5_balance_subtraction (l : List Transaccion) (s : Stats)
    (hs : calcular_estadisticas l = .ok s) :
    decSub s.suma_creditos s.suma_debitos = .ok s.balance_final ∧
    ∀ c d, s.suma_creditos = .finite c → s.suma_debitos = .finite d →
      s.balance_final = .finite (c.sub d) ∧
      c.sub d = roundDec (c.subExact d) ∧
      valQ (c.subExact d) = valQ c - valQ d ∧
      (numDigits (c.subExact d).coeff.natAbs ≤ decPrec →
        valQ (c.sub d) = valQ c - valQ d) := by
  unfold calcular_estadisticas at hs
  cases hA : aggLoop initAgg l with
  | error e => rw [hA] at hs; simp at hs
  | ok st =>
    rw [hA] at hs
    dsimp only at hs
    cases hB : decSub st.suma_creditos st.suma_debitos with
    | error e => rw [hB] at hs; simp at hs
    | ok bal =>
      rw [hB] at hs
      dsimp only at hs
      simp only [Except.ok.injEq] at hs
      subst hs
      refine ⟨hB, ?_⟩
      intro c d hc hd
      simp only at hc hd
      rw [hc, hd] at hB
      have hbal : bal = PyDec.finite (c.sub d) := by
        have : decSub (PyDec.finite c) (PyDec.finite d) =
          .ok (PyDec.finite (c.sub d)) := rfl
        rw [this] at hB
        exact (Except.ok.injEq _ _ ).mp hB |>.symm
      refine ⟨hbal, rfl, valQ_subExact c d, fun hfit => ?_⟩
      have hsub : c.sub d = c.subExact d := by
        unfold DecFin.sub
        exact roundDec_eq_self _ hfit
      rw [hsub, valQ_subExact]

/-- The spec's exact-arithmetic example input: credits `100.10`, `50.00`,
debit `30.05`. -/
def exC5 : List Transaccion :=
  [⟨"1", "credito", "100.10"⟩, ⟨"2", "credito", "50.00"⟩,
   ⟨"3", "debito", "30.05"⟩]

/-- Statistics computed on `exC5`: totals `150.10` and `30.05`, balance
`120.05`, all exact. -/
def stC5 : Stats :=
  { suma_creditos := .finite ⟨15010, -2⟩
    suma_debitos := .finite ⟨3005, -2⟩
    balance_final := .finite ⟨12005, -2⟩
    transaccion_mayor_id := some "1"
    transaccion_mayor_monto := .finite ⟨10010, -2⟩
    contador_creditos := 2
    contador_debitos := 1 }

theorem C5_witness :
    calcular_estadisticas exC5 = .ok stC5 ∧
    decSub stC5.suma_creditos stC5.suma_debitos = .ok stC5.balance_final ∧
    stC5.balance_final = .finite (DecFin.sub ⟨15010, -2⟩ ⟨3005, -2⟩) ∧
    numDigits (DecFin.subExact ⟨15010, -2⟩ ⟨3005, -2⟩).coeff.natAbs ≤ decPrec ∧
    valQ (DecFin.sub ⟨15010, -2⟩ ⟨3005, -2⟩) =
      valQ ⟨15010, -2⟩ - valQ ⟨3005, -2⟩ :=
  ⟨by decide,
   (C5_balance_subtraction exC5 stC5 (by decide)).1,
   ((C5_balance_subtraction exC5 stC5 (by decide)).2 ⟨15010, -2⟩ ⟨3005, -2⟩
     (by decide) (by decide)).1,
   by decide,
   ((C5_balance_subtraction exC5 stC5 (by decide)).2 ⟨15010, -2⟩ ⟨3005, -2⟩
     (by decide) (by decide)).2.2.2 (by decide)⟩

/-- C6 (amended): for every statistics dictionary, the console report and
the file report are byte-identical except that the CONSOLE text carries
one extra leading newline (the first `print` starts with `"\n"` while the
file write does not); both end with a newline. -/
theorem C6_console_is_newline_then_file (e : Stats) :
    generar_reporte_output e = "\n" ++ guardar_reporte_contents e := by
  unfold generar_reporte_output guardar_reporte_contents
  have h : ("\n===== REPORTE DE TRANSACCIONES BANCARIAS =====\n" : String) =
      "\n" ++ "===== REPORTE DE TRANSACCIONES BANCARIAS =====\n" := by decide
  rw [h, String.append_assoc]

/-- Statistics produced by an empty transaction list, used to evaluate the
two report texts concretely. -/
def stC6 : Stats :=
  { suma_creditos := .finite ⟨0, 0⟩
    suma_debitos := .finite ⟨0, 0⟩
    balance_final := .finite ⟨0, 0⟩
    transaccion_mayor_id := none
    transaccion_mayor_monto := .finite ⟨0, 0⟩
    contador_creditos := 0
    contador_debitos := 0 }

/-- C6 (counterexample): the two report texts are NOT byte-identical, and
the difference is not a file-only closing newline: neither text equals the
other extended by a trailing newline.  (The real difference is the leading
newline of the console text.) -/
theorem C6_counterexample :
    calcular_estadisticas [] = .ok stC6 ∧
    generar_reporte_output stC6 ≠ guardar_reporte_contents stC6 ∧
    guardar_reporte_contents stC6 ≠ generar_reporte_output stC6 ++ "\n" ∧
    generar_reporte_output stC6 ≠ guardar_reporte_contents stC6 ++ "\n" := by
  refine ⟨by decide, by decide, by decide, by decide⟩

theorem C6_witness :
    generar_reporte_output stC6 = "\n" ++ guardar_reporte_contents stC6 :=
  C6_console_is_newline_then_file stC6

/-- C7: a header missing any of the required fields `{id, tipo, monto}`
makes the Loader fail and return no rows at all, and the pipeline then
produces no report (and no exception escapes). -/
theorem C7_schema_error (fieldnames : List String) (rows : List Transaccion)
    (h : ¬ ("id" ∈ fieldnames ∧ "tipo" ∈ fieldnames ∧ "monto" ∈ fieldnames)) :
    leer_archivo_csv fieldnames rows = none ∧
    procesar_archivo_csv fieldnames rows = .ok none := by
  have hl : leer_archivo_csv fieldnames rows = none := by
    unfold leer_archivo_csv
    rw [if_neg h]
  refine ⟨hl, ?_⟩
  unfold procesar_archivo_csv
  rw [hl]

theorem C7_witness :
    ¬ ("id" ∈ ["id", "tipo", "fecha"] ∧ "tipo" ∈ ["id", "tipo", "fecha"] ∧
        "monto" ∈ ["id", "tipo", "fecha"]) ∧
    leer_archivo_csv ["id", "tipo", "fecha"] [⟨"1", "credito", "50"⟩] = none ∧
    procesar_archivo_csv ["id", "tipo", "fecha"] [⟨"1", "credito", "50"⟩] =
      .ok none :=
  ⟨by decide,
   (C7_schema_error ["id", "tipo", "fecha"] [⟨"1", "credito", "50"⟩] (by decide)).1,
   (C7_schema_error ["id", "tipo", "fecha"] [⟨"1", "credito", "50"⟩] (by decide)).2⟩

/-- C8: the classifier is total — every input string maps to one of
`credito`, `debito`, `desconocido` — and is case- and accent-insensitive
on the Spanish spellings: `CRÉDITO`, `credito`, `Credito` → credit,
`Débito`, `debito` → debit, anything else (e.g. `transferencia`) →
`desconocido`. -/
theorem C8_clasificador_total :
    (∀ tipo : String,
      clasificar_transaccion tipo = "credito" ∨
      clasificar_transaccion tipo = "debito" ∨
      clasificar_transaccion tipo = "desconocido") ∧
    clasificar_transaccion "CRÉDITO" = "credito" ∧
    clasificar_transaccion "credito" = "credito" ∧
    clasificar_transaccion "Credito" = "credito" ∧
    clasificar_transaccion "Débito" = "debito" ∧
    clasificar_transaccion "debito" = "debito" ∧
    clasificar_transaccion "transferencia" = "desconocido" := by
  refine ⟨fun tipo => ?_, by decide, by decide, by decide, by decide,
    by decide, by decide⟩
  by_cases h1 : pyLower tipo = "crédito" ∨ pyLower tipo = "credito"
  · left
    simp [clasificar_transaccion, h1]
  · by_cases h2 : pyLower tipo = "débito" ∨ pyLower tipo = "debito"
    · right
      left
      simp [clasificar_transaccion, h1, h2]
    · right
      right
      simp [clasificar_transaccion, h1, h2]

/-- C9: the empty transaction list yields zero totals, zero balance,
largest transaction `{'id': None, 'monto': 0}`, and zero counts. -/
theorem C9_empty_input :
    calcular_estadisticas [] =
      .ok { suma_creditos := .finite ⟨0, 0⟩
            suma_debitos := .finite ⟨0, 0⟩
            balance_final := .finite ⟨0, 0⟩
            transaccion_mayor_id := none
            transaccion_mayor_monto := .finite ⟨0, 0⟩
            contador_creditos := 0
            contador_debitos := 0 } ∧
    valQ ⟨0, 0⟩ = 0 := by
  refine ⟨by decide, valQ_zero⟩

/-- C10: the amount parser accepts the non-finite decimal strings `NaN`,
`Infinity` and `-Infinity`: `validar_monto` returns a (non-None) Decimal
object for each instead of rejecting the row. -/
theorem C10_nonfinite_amounts_accepted :
    validar_monto "NaN" "1" = .ok (some (.nan false)) ∧
    validar_monto "Infinity" "2" = .ok (some (.inf false)) ∧
    validar_monto "-Infinity" "3" = .ok (some (.inf true)) := by
  refine ⟨by decide, by decide, by decide⟩
